import Mathlib

/-!
Shallow embedding of the trade-offer service of the VidEX repository
(`src/index.ts`, `src/kafka-producer.ts`, `src/email-templates.ts`,
`src/email-consumer/index.ts`, `src/event-schemas.ts`).

Conventions of the embedding:
* every `await sql` statement of the handlers is one atomic step against the
  database state `DB`; the database rows become association lists;
* timestamps become `Nat` values passed in as the `now` argument of each
  handler (the TypeScript handlers call `new Date()` once per request);
* Postgres foreign-key enforcement of the `trade_offers` table is part of the
  modelled `INSERT` (a violated constraint makes the `INSERT` throw, which the
  handler's `catch` turns into a 400 "Invalid input" response);
* `publishEmailEvent` (kafka-producer.ts) is fire-and-forget: the producer
  send either reaches the broker or fails after its bounded retries, in which
  case the error is only logged (`.catch(console.error)`).  The outcome of the
  n-th send of a request is an oracle argument `pubOk : Nat → Bool`; it can
  influence only the log output, exactly as in the source.
-/

/-- `status` column of `trade_offers`: CHECK(status IN ('pending','accepted','rejected')). -/
inductive Status where
  | pending
  | accepted
  | rejected
deriving DecidableEq, Repr

/-- The string stored in / read from the `status` column. -/
def Status.toDbString : Status → String
  | .pending => "pending"
  | .accepted => "accepted"
  | .rejected => "rejected"

/-- A row of the `games` table (the columns the offer handlers read). -/
structure Game where
  owner_id : Nat
  name : String
  year : Nat
deriving DecidableEq, Repr

/-- A row of the `users` table (the columns the offer handlers read). -/
structure User where
  name : String
  email : String
deriving DecidableEq, Repr

/-- A row of the `trade_offers` table. -/
structure Offer where
  id : Nat
  requested_game_id : Nat
  offered_game_id : Nat
  offerer_id : Nat
  recipient_id : Nat
  status : Status
  created_at : Nat
  updated_at : Nat
deriving DecidableEq, Repr

/-- The database state seen by the service: the three tables, plus the next
value of the `trade_offers.id` SERIAL sequence. -/
structure DB where
  users : List (Nat × User)
  games : List (Nat × Game)
  offers : List Offer
  nextOfferId : Nat
deriving DecidableEq, Repr

/-- `SELECT * FROM users WHERE id = i` (first row). -/
def DB.findUser (st : DB) (i : Nat) : Option User :=
  (st.users.find? (fun p => p.1 == i)).map Prod.snd

/-- `SELECT * FROM games WHERE id = i` (first row). -/
def DB.findGame (st : DB) (i : Nat) : Option Game :=
  (st.games.find? (fun p => p.1 == i)).map Prod.snd

/-- `SELECT * FROM trade_offers WHERE id = i` (first row). -/
def DB.findOffer (st : DB) (i : Nat) : Option Offer :=
  st.offers.find? (fun o => o.id == i)

/-- Whether a user row with this id exists. -/
def DB.hasUser (st : DB) (i : Nat) : Bool :=
  st.users.any (fun p => p.1 == i)

/-- Whether a game row with this id exists. -/
def DB.hasGame (st : DB) (i : Nat) : Bool :=
  st.games.any (fun p => p.1 == i)

/-- Referential integrity of the schema of `src/index.ts`: every game's
`owner_id` references a user, and every offer's four foreign keys resolve
(`games.owner_id → users.id`, `trade_offers.{offerer_id,recipient_id} →
users.id`, `trade_offers.{requested_game_id,offered_game_id} → games.id`).
Postgres enforces these constraints, so every reachable database satisfies
them. -/
def DB.wf (st : DB) : Bool :=
  st.games.all (fun p => st.hasUser p.2.owner_id) &&
  st.offers.all (fun o =>
    st.hasUser o.offerer_id && st.hasUser o.recipient_id &&
    st.hasGame o.requested_game_id && st.hasGame o.offered_game_id)

/-!
## Template renderer (`src/email-templates.ts`)

The templates are compiled with `Handlebars.compile` using default options.
The embedding models the Handlebars subset these templates use: simple
`\x7b\x7bidentifier\x7d\x7d` mustaches.  With the default options a mustache whose
variable is bound is replaced by the HTML-escaped value, and a mustache whose
variable is unbound renders as the empty string (Handlebars treats a missing
value as `undefined`, which stringifies to `""`; compile-time `strict` mode,
which would raise instead, is not enabled here).  Numbers passed as values are
stringified.  All template sources in the repository are well-formed, so the
end-of-input recovery branches below are never exercised by them.
-/

/-- Handlebars `escapeExpression`, applied to every mustache value:
`&`, `<`, `>`, `"`, the apostrophe, the backtick and `=` become HTML
entities. -/
def hbEscapeChar (c : Char) : String :=
  if c = '&' then "&amp;"
  else if c = '<' then "&lt;"
  else if c = '>' then "&gt;"
  else if c = '"' then "&quot;"
  else if c = Char.ofNat 39 then "&#x27;"
  else if c = Char.ofNat 96 then "&#x60;"
  else if c = '=' then "&#x3D;"
  else String.mk [c]

/-- Handlebars escaping of a whole value. -/
def hbEscape (s : String) : String :=
  String.join (s.data.map hbEscapeChar)

/-- Value bound to a variable name, if any. -/
def hbLookup (vars : List (String × String)) (n : String) : Option String :=
  (vars.find? (fun p => p.1 == n)).map Prod.snd

/-- Text a single mustache produces: the escaped bound value, or the empty
string when the variable is unbound. -/
def hbSubst (vars : List (String × String)) (n : String) : List Char :=
  match hbLookup vars n with
  | some v => (hbEscape v).data
  | none => []

/-- Scanner state of the renderer: outside any mustache, one opening brace
seen, inside a mustache (collected name characters, reversed), or inside a
mustache with one closing brace seen. -/
inductive HbMode where
  | out
  | openBrace
  | inside (acc : List Char)
  | closeBrace (acc : List Char)

/-- One left-to-right pass over the template text, substituting every
mustache. -/
def hbAux (vars : List (String × String)) : HbMode → List Char → List Char
  | .out, [] => []
  | .out, c :: cs =>
    if c = '{' then hbAux vars .openBrace cs else c :: hbAux vars .out cs
  | .openBrace, [] => ['{']
  | .openBrace, c :: cs =>
    if c = '{' then hbAux vars (.inside []) cs else '{' :: c :: hbAux vars .out cs
  | .inside acc, [] => '{' :: '{' :: acc.reverse
  | .inside acc, c :: cs =>
    if c = '}' then hbAux vars (.closeBrace acc) cs
    else hbAux vars (.inside (c :: acc)) cs
  | .closeBrace acc, [] => '{' :: '{' :: acc.reverse ++ ['}']
  | .closeBrace acc, c :: cs =>
    if c = '}' then hbSubst vars (String.mk acc.reverse) ++ hbAux vars .out cs
    else hbAux vars (.inside (c :: '}' :: acc)) cs

/-- Rendering a compiled template against a set of variable bindings. -/
def hbRender (tpl : String) (vars : List (String × String)) : String :=
  String.mk (hbAux vars .out tpl.data)

/-- The six variables every trade-offer template of `email-templates.ts` is
called with (years are numbers in the source and are stringified by
Handlebars). -/
structure OfferTemplateVars where
  offererName : String
  recipientName : String
  offeredGameName : String
  offeredGameYear : Nat
  requestedGameName : String
  requestedGameYear : Nat
deriving DecidableEq, Repr

/-- The binding list the template call sites pass. -/
def OfferTemplateVars.bindings (v : OfferTemplateVars) : List (String × String) :=
  [("offererName", v.offererName), ("recipientName", v.recipientName),
   ("offeredGameName", v.offeredGameName), ("offeredGameYear", toString v.offeredGameYear),
   ("requestedGameName", v.requestedGameName), ("requestedGameYear", toString v.requestedGameYear)]

/-- Source text of `offerReceivedTemplate`. -/
def offerReceivedTemplateSrc : String :=
"New Trade Offer!

Hi \x7b\x7brecipientName\x7d\x7d,

You\x27ve received a new trade offer from \x7b\x7boffererName\x7d\x7d!

They\x27re offering: \x7b\x7bofferedGameName\x7d\x7d (\x7b\x7bofferedGameYear\x7d\x7d)
They\x27re requesting: \x7b\x7brequestedGameName\x7d\x7d (\x7b\x7brequestedGameYear\x7d\x7d)

Log in to your VidEX account to view and respond to this offer.

---
This is an automated message from VidEX. Please do not reply to this email."

/-- Source text of `offerAcceptedTemplate`. -/
def offerAcceptedTemplateSrc : String :=
"Trade Offer Accepted!

Great news! \x7b\x7brecipientName\x7d\x7d has accepted your trade offer!

You\x27re sending: \x7b\x7bofferedGameName\x7d\x7d (\x7b\x7bofferedGameYear\x7d\x7d)
You\x27re receiving: \x7b\x7brequestedGameName\x7d\x7d (\x7b\x7brequestedGameYear\x7d\x7d)

Please arrange the exchange with \x7b\x7brecipientName\x7d\x7d through VidEX messaging or your preferred contact method.

---
This is an automated message from VidEX. Please do not reply to this email."

/-- Source text of `offerRejectedTemplate`. -/
def offerRejectedTemplateSrc : String :=
"Trade Offer Rejected

Unfortunately, \x7b\x7brecipientName\x7d\x7d has declined your trade offer.

You were offering: \x7b\x7bofferedGameName\x7d\x7d (\x7b\x7bofferedGameYear\x7d\x7d)
For their: \x7b\x7brequestedGameName\x7d\x7d (\x7b\x7brequestedGameYear\x7d\x7d)

Don\x27t worry, there are other collectors on VidEX! Feel free to make offers to other users.

---
This is an automated message from VidEX. Please do not reply to this email."

/-- Source text of `offerCreatedConfirmationTemplate`. -/
def offerCreatedConfirmationTemplateSrc : String :=
"Trade Offer Sent!

Hi \x7b\x7boffererName\x7d\x7d,

Your trade offer has been sent to \x7b\x7brecipientName\x7d\x7d!

You\x27re offering: \x7b\x7bofferedGameName\x7d\x7d (\x7b\x7bofferedGameYear\x7d\x7d)
You\x27re requesting: \x7b\x7brequestedGameName\x7d\x7d (\x7b\x7brequestedGameYear\x7d\x7d)

We\x27ll notify you when \x7b\x7brecipientName\x7d\x7d responds to your offer.

---
This is an automated message from VidEX. Please do not reply to this email."

/-- Source text of `offerAcceptedRecipientTemplate`. -/
def offerAcceptedRecipientTemplateSrc : String :=
"You Accepted a Trade!

Hi \x7b\x7brecipientName\x7d\x7d,

You\x27ve accepted a trade offer from \x7b\x7boffererName\x7d\x7d!

You\x27re sending: \x7b\x7brequestedGameName\x7d\x7d (\x7b\x7brequestedGameYear\x7d\x7d)
You\x27re receiving: \x7b\x7bofferedGameName\x7d\x7d (\x7b\x7bofferedGameYear\x7d\x7d)

Please arrange the exchange with \x7b\x7boffererName\x7d\x7d through VidEX messaging or your preferred contact method.

---
This is an automated message from VidEX. Please do not reply to this email."

/-- Source text of `offerRejectedRecipientTemplate`. -/
def offerRejectedRecipientTemplateSrc : String :=
"You Declined a Trade Offer

Hi \x7b\x7brecipientName\x7d\x7d,

You\x27ve declined the trade offer from \x7b\x7boffererName\x7d\x7d.

They were offering: \x7b\x7bofferedGameName\x7d\x7d (\x7b\x7bofferedGameYear\x7d\x7d)
For your: \x7b\x7brequestedGameName\x7d\x7d (\x7b\x7brequestedGameYear\x7d\x7d)

You can continue browsing other trade offers on VidEX.

---
This is an automated message from VidEX. Please do not reply to this email."

/-- `offerReceivedTemplate(vars)` of `email-templates.ts`. -/
def offerReceivedTemplate (v : OfferTemplateVars) : String :=
  hbRender offerReceivedTemplateSrc v.bindings

/-- `offerAcceptedTemplate(vars)` of `email-templates.ts`. -/
def offerAcceptedTemplate (v : OfferTemplateVars) : String :=
  hbRender offerAcceptedTemplateSrc v.bindings

/-- `offerRejectedTemplate(vars)` of `email-templates.ts`. -/
def offerRejectedTemplate (v : OfferTemplateVars) : String :=
  hbRender offerRejectedTemplateSrc v.bindings

/-- `offerCreatedConfirmationTemplate(vars)` of `email-templates.ts`. -/
def offerCreatedConfirmationTemplate (v : OfferTemplateVars) : String :=
  hbRender offerCreatedConfirmationTemplateSrc v.bindings

/-- `offerAcceptedRecipientTemplate(vars)` of `email-templates.ts`. -/
def offerAcceptedRecipientTemplate (v : OfferTemplateVars) : String :=
  hbRender offerAcceptedRecipientTemplateSrc v.bindings

/-- `offerRejectedRecipientTemplate(vars)` of `email-templates.ts`. -/
def offerRejectedRecipientTemplate (v : OfferTemplateVars) : String :=
  hbRender offerRejectedRecipientTemplateSrc v.bindings

/-!
## Events, handler outputs, and the offer handlers (`src/index.ts`,
`src/kafka-producer.ts`)
-/

/-- The payload fields of the `email.send` wire event that the handlers
determine (`event-schemas.ts`); `toAddr` is the wire field `to` (a Lean
keyword); `id` and `timestamp` are generated from the clock and a random
token in `generateEventId` and carry no information the claims mention. -/
structure EmailEvent where
  toAddr : String
  subject : String
  body : String
deriving DecidableEq, Repr

/-- One atomic database or broker interaction of a handler, in program
order. -/
inductive SvcAction where
  | insertOffer (o : Offer)
  | updateOffer (id : Nat) (s : Status) (now : Nat)
  | publish (ev : EmailEvent)
deriving DecidableEq, Repr

/-- Whether the action is a write against the offer store. -/
def SvcAction.isWrite : SvcAction → Bool
  | .insertOffer _ => true
  | .updateOffer _ _ _ => true
  | .publish _ => false

/-- The event an action hands to the broker, if it is a publish. -/
def SvcAction.publishedEvent : SvcAction → Option EmailEvent
  | .publish ev => some ev
  | _ => none

/-- The response value a handler produces (`errorResponse`, or the JSON
offer body with its HTTP status; `_links` decoration is presentation and not
modelled). -/
inductive Resp where
  | err (code : Nat) (message : String)
  | offer (o : Offer) (httpStatus : Nat)
  | offerList (l : List Offer)
deriving DecidableEq, Repr

/-- Whether the response is a success (2xx offer body). -/
def Resp.isOk : Resp → Bool
  | .offer _ _ => true
  | .offerList _ => true
  | .err _ _ => false

/-- Result of one handler execution: the response, the database afterwards,
the trace of store writes and broker publishes in program order, and console
log lines. -/
structure HandlerOut where
  resp : Resp
  db : DB
  trace : List SvcAction
  logs : List String
deriving DecidableEq, Repr

/-- The notification events the handler handed to the broker, in order. -/
def HandlerOut.events (h : HandlerOut) : List EmailEvent :=
  h.trace.filterMap SvcAction.publishedEvent

/-- `errorResponse(code, message)` of `src/index.ts`: no store change, no
publish. -/
def errorOut (st : DB) (code : Nat) (message : String) : HandlerOut :=
  { resp := .err code message, db := st, trace := [], logs := [] }

/-- `publishEmailEvent` of `kafka-producer.ts`: the send is fire-and-forget;
`ok` is the outcome of the bounded-retry send, and a failed send only
produces a log line (`.catch(console.error)`) — nothing flows back to the
caller. -/
def publishEmailEvent (ok : Bool) (ev : EmailEvent) : List String :=
  if ok then [] else ["Failed to publish email event to " ++ ev.toAddr]

/-- `POST /offers` after authentication and body validation (src/index.ts
lines 577-651).  `pubOk n` is the broker outcome of the n-th publish of this
request.  The `INSERT` enforces the foreign keys of `trade_offers`
(`offerer_id`, `recipient_id` → `users.id`); a violation throws and the
surrounding `catch` returns 400 "Invalid input".  The two game foreign keys
hold because both rows were just read.  The user `SELECT`s after the `INSERT`
read the `users` table, which the `INSERT` leaves untouched, so they are
written as reads of `st` (definitionally the same lookups). -/
def createOfferCore (st : DB) (actor requestedGameId offeredGameId now : Nat)
    (pubOk : Nat → Bool) : HandlerOut :=
  match st.findGame requestedGameId with
  | none => errorOut st 404 "Requested game not found"
  | some requestedGame =>
    match st.findGame offeredGameId with
    | none => errorOut st 404 "Offered game not found"
    | some offeredGame =>
      if offeredGame.owner_id ≠ actor then
        errorOut st 403 "Forbidden: You can only offer games you own"
      else if requestedGame.owner_id = actor then
        errorOut st 400 "Cannot create trade offer for your own game"
      else if st.hasUser actor && st.hasUser requestedGame.owner_id then
        let offer : Offer :=
          { id := st.nextOfferId, requested_game_id := requestedGameId,
            offered_game_id := offeredGameId, offerer_id := actor,
            recipient_id := requestedGame.owner_id, status := .pending,
            created_at := now, updated_at := now }
        let st1 : DB :=
          { st with offers := st.offers ++ [offer], nextOfferId := st.nextOfferId + 1 }
        match st.findUser offer.offerer_id, st.findUser offer.recipient_id with
        | some offerer, some recipient =>
          let v : OfferTemplateVars :=
            { offererName := offerer.name, recipientName := recipient.name,
              offeredGameName := offeredGame.name, offeredGameYear := offeredGame.year,
              requestedGameName := requestedGame.name, requestedGameYear := requestedGame.year }
          let ev1 : EmailEvent :=
            { toAddr := recipient.email, subject := "You\x27ve received a trade offer!",
              body := offerReceivedTemplate v }
          let ev2 : EmailEvent :=
            { toAddr := offerer.email, subject := "Your trade offer has been sent!",
              body := offerCreatedConfirmationTemplate v }
          { resp := .offer offer 201, db := st1,
            trace := [.insertOffer offer, .publish ev1, .publish ev2],
            logs := publishEmailEvent (pubOk 0) ev1 ++ publishEmailEvent (pubOk 1) ev2 }
        | _, _ =>
          { resp := .offer offer 201, db := st1, trace := [.insertOffer offer], logs := [] }
      else
        errorOut st 400 "Invalid input"

/-- Modelled from the spec: `TradeOfferUpdateSchema` is imported by
`src/index.ts` from `./schemas` but absent from src/; per the spec the new
status supplied to `UpdateStatus` must be one of the two terminal values
`accepted` or `rejected`, and any other input is an invalid request. -/
def tradeOfferUpdateParse (raw : String) : Option Status :=
  if raw = "accepted" then some .accepted
  else if raw = "rejected" then some .rejected
  else none

/-- The read-and-validate phase of `PATCH /offers/:id` (src/index.ts lines
674-698): one `SELECT` of the offer row, then the in-memory recipient,
pending and body checks.  `body` is the `status` field of the parsed request
body, `none` when `req.json()` throws (the `catch` yields 400
"Invalid input"). -/
def patchCheck (st : DB) (actor offerId : Nat) (body : Option String) : Except Resp Status :=
  match st.findOffer offerId with
  | none => .error (.err 404 "Trade offer not found")
  | some offer =>
    if offer.recipient_id ≠ actor then
      .error (.err 403 "Forbidden: Only the recipient can update this offer")
    else if offer.status ≠ .pending then
      .error (.err 400 "Only pending offers can be updated")
    else
      match body with
      | none => .error (.err 400 "Invalid input")
      | some raw =>
        match tradeOfferUpdateParse raw with
        | none => .error (.err 400 "Invalid status value")
        | some s => .ok s

/-- The `UPDATE` of `PATCH /offers/:id` (src/index.ts lines 701-706):
`UPDATE trade_offers SET status = ?, updated_at = ? WHERE id = ?` — the
predicate is the id alone; it carries no `status = 'pending'` guard. -/
def patchApply (st : DB) (offerId : Nat) (s : Status) (now : Nat) : DB :=
  { st with offers := st.offers.map (fun o =>
      if o.id == offerId then { o with status := s, updated_at := now } else o) }

/-- The write-and-notify phase of `PATCH /offers/:id` (src/index.ts lines
701-771): the unconditional `UPDATE`, the four follow-up `SELECT`s, and the
two status-dependent publishes.  The `RETURNING *` row is the updated row;
were it absent, reading its fields would throw into the `catch` (400).  The
user and game `SELECT`s after the `UPDATE` read tables the `UPDATE` leaves
untouched, so they are written as reads of `st` (definitionally the same
lookups). -/
def patchFinish (st : DB) (offerId : Nat) (s : Status) (now : Nat)
    (pubOk : Nat → Bool) : HandlerOut :=
  let st1 := patchApply st offerId s now
  match st1.findOffer offerId with
  | none => errorOut st1 400 "Invalid input"
  | some updatedOffer =>
    match st.findUser updatedOffer.offerer_id, st.findUser updatedOffer.recipient_id,
          st.findGame updatedOffer.requested_game_id, st.findGame updatedOffer.offered_game_id with
    | some offerer, some recipient, some requestedGame, some offeredGame =>
      let v : OfferTemplateVars :=
        { offererName := offerer.name, recipientName := recipient.name,
          offeredGameName := offeredGame.name, offeredGameYear := offeredGame.year,
          requestedGameName := requestedGame.name, requestedGameYear := requestedGame.year }
      if updatedOffer.status = .accepted then
        let ev1 : EmailEvent :=
          { toAddr := offerer.email, subject := "Your trade offer was accepted!",
            body := offerAcceptedTemplate v }
        let ev2 : EmailEvent :=
          { toAddr := recipient.email, subject := "You accepted a trade offer!",
            body := offerAcceptedRecipientTemplate v }
        { resp := .offer updatedOffer 200, db := st1,
          trace := [.updateOffer offerId s now, .publish ev1, .publish ev2],
          logs := publishEmailEvent (pubOk 0) ev1 ++ publishEmailEvent (pubOk 1) ev2 }
      else if updatedOffer.status = .rejected then
        let ev1 : EmailEvent :=
          { toAddr := offerer.email, subject := "Your trade offer was declined",
            body := offerRejectedTemplate v }
        let ev2 : EmailEvent :=
          { toAddr := recipient.email, subject := "You declined a trade offer",
            body := offerRejectedRecipientTemplate v }
        { resp := .offer updatedOffer 200, db := st1,
          trace := [.updateOffer offerId s now, .publish ev1, .publish ev2],
          logs := publishEmailEvent (pubOk 0) ev1 ++ publishEmailEvent (pubOk 1) ev2 }
      else
        { resp := .offer updatedOffer 200, db := st1,
          trace := [.updateOffer offerId s now], logs := [] }
    | _, _, _, _ =>
      { resp := .offer updatedOffer 200, db := st1,
        trace := [.updateOffer offerId s now], logs := [] }

/-- `PATCH /offers/:id` after authentication (src/index.ts lines 673-774):
the read-and-validate phase immediately followed by the write-and-notify
phase (no interleaving in a sequential execution). -/
def updateStatusCore (st : DB) (actor offerId : Nat) (body : Option String) (now : Nat)
    (pubOk : Nat → Bool) : HandlerOut :=
  match patchCheck st actor offerId body with
  | .error r => { resp := r, db := st, trace := [], logs := [] }
  | .ok s => patchFinish st offerId s now pubOk

/-!
## Authentication gate and the read routes (`src/index.ts`)
-/

/-- `authenticate` of `src/index.ts` (lines 69-82): reads the Authorization
header; a missing header, a header without the Bearer scheme, or a token
`jwt.verify` rejects all yield `null`.  `verify` abstracts
`jwt.verify(token, JWT_SECRET)`: the user id the token proves, if any. -/
def authenticate (verify : String → Option Nat) (authHeader : Option String) : Option Nat :=
  match authHeader with
  | none => none
  | some h => if h.startsWith "Bearer " then verify (h.drop 7) else none

/-- Stable insertion of an offer into a list sorted by `created_at`
descending. -/
def insertByCreatedDesc (o : Offer) : List Offer → List Offer
  | [] => [o]
  | x :: xs =>
    if x.created_at < o.created_at then o :: x :: xs else x :: insertByCreatedDesc o xs

/-- `ORDER BY created_at DESC`. -/
def sortByCreatedDesc : List Offer → List Offer
  | [] => []
  | x :: xs => insertByCreatedDesc x (sortByCreatedDesc xs)

/-- The query-string filter of `GET /offers`; an absent field is a
wildcard. -/
structure OfferFilter where
  status : Option String
  offererId : Option Nat
  recipientId : Option Nat
deriving DecidableEq, Repr

/-- The `SELECT` of `GET /offers` (src/index.ts lines 557-563). -/
def listOffersQuery (st : DB) (f : OfferFilter) : List Offer :=
  sortByCreatedDesc (st.offers.filter (fun o =>
    (match f.status with | none => true | some s => o.status.toDbString == s) &&
    (match f.offererId with | none => true | some i => o.offerer_id == i) &&
    (match f.recipientId with | none => true | some i => o.recipient_id == i)))

/-- `GET /offers` (src/index.ts lines 546-571). -/
def getOffersRoute (verify : String → Option Nat) (authHeader : Option String)
    (st : DB) (f : OfferFilter) : HandlerOut :=
  match authenticate verify authHeader with
  | none => errorOut st 401 "Unauthorized: Please login first"
  | some _ => { resp := .offerList (listOffersQuery st f), db := st, trace := [], logs := [] }

/-- `GET /offers/:id` (src/index.ts lines 655-667). -/
def getOfferRoute (verify : String → Option Nat) (authHeader : Option String)
    (st : DB) (offerId : Nat) : HandlerOut :=
  match authenticate verify authHeader with
  | none => errorOut st 401 "Unauthorized: Please login first"
  | some _ =>
    match st.findOffer offerId with
    | none => errorOut st 404 "Trade offer not found"
    | some o => { resp := .offer o 200, db := st, trace := [], logs := [] }

/-- `POST /offers` (src/index.ts lines 572-652): the authentication gate,
then body validation, then the create operation.  `body = none` stands for a
request body that `req.json()` or `TradeOfferInputSchema` (imported from
`./schemas`, absent from src/) rejects; the claims below only concern
validated bodies, which carry the two game ids. -/
def postOffersRoute (verify : String → Option Nat) (authHeader : Option String)
    (st : DB) (body : Option (Nat × Nat)) (now : Nat) (pubOk : Nat → Bool) : HandlerOut :=
  match authenticate verify authHeader with
  | none => errorOut st 401 "Unauthorized: Please login first"
  | some actor =>
    match body with
    | none => errorOut st 400 "Invalid input"
    | some (requestedGameId, offeredGameId) =>
      createOfferCore st actor requestedGameId offeredGameId now pubOk

/-- `PATCH /offers/:id` (src/index.ts lines 668-775): the authentication
gate, then the update operation. -/
def patchOfferRoute (verify : String → Option Nat) (authHeader : Option String)
    (st : DB) (offerId : Nat) (body : Option String) (now : Nat)
    (pubOk : Nat → Bool) : HandlerOut :=
  match authenticate verify authHeader with
  | none => errorOut st 401 "Unauthorized: Please login first"
  | some actor => updateStatusCore st actor offerId body now pubOk

/-!
## Concurrent executions of `PATCH /offers/:id`

Each `await sql` of the handler is one atomic step against the store; between
two steps of one request the steps of a concurrent request may run.  A
request is its read-and-validate phase (`patchCheck`, one `SELECT` plus pure
checks) followed by its write-and-notify phase (`patchFinish`, whose first
step is the `UPDATE`).
-/

/-- The arguments of one `PATCH /offers/:id` request (after
authentication). -/
structure PatchCall where
  actor : Nat
  offerId : Nat
  body : Option String
  now : Nat
deriving Repr

/-- The interleaving in which both requests perform their read-and-validate
phase against the initial store before either performs its write: read of
call 1, read of call 2, then the remaining steps of call 1, then the
remaining steps of call 2.  Returns both responses and the final store. -/
def racePatch (st : DB) (c1 c2 : PatchCall) (pubOk : Nat → Bool) : Resp × Resp × DB :=
  match patchCheck st c1.actor c1.offerId c1.body, patchCheck st c2.actor c2.offerId c2.body with
  | .error e1, .error e2 => (e1, e2, st)
  | .error e1, .ok s2 =>
    let h2 := patchFinish st c2.offerId s2 c2.now pubOk
    (e1, h2.resp, h2.db)
  | .ok s1, .error e2 =>
    let h1 := patchFinish st c1.offerId s1 c1.now pubOk
    (h1.resp, e2, h1.db)
  | .ok s1, .ok s2 =>
    let h1 := patchFinish st c1.offerId s1 c1.now pubOk
    let h2 := patchFinish h1.db c2.offerId s2 c2.now pubOk
    (h1.resp, h2.resp, h2.db)

/-!
## Notification consumer (`src/email-consumer/index.ts`)
-/

/-- A parsed message value as `processMessage` inspects it: the four fields
`JSON.parse` may or may not have produced; `toAddr` is the wire field `to`.
Absent fields and empty strings are falsy in the JavaScript guard. -/
structure RawEvent where
  type : Option String
  toAddr : Option String
  subject : Option String
  body : Option String
deriving DecidableEq, Repr

/-- A delivery attempt through the nodemailer channel (`sendEmail`). -/
inductive ConsumerAction where
  | deliver (toAddr subject body : String)
deriving DecidableEq, Repr

/-- Result of consuming one message: delivery attempts made and log lines;
returning at all means the message is consumed (the `eachMessage` callback
resolves and the consumer moves on — there is no re-queue at this layer). -/
structure ConsumeOut where
  actions : List ConsumerAction
  logs : List String
deriving DecidableEq, Repr

/-- `processMessage` of `src/email-consumer/index.ts` (lines 52-69).
`value = none`: the Kafka message has no value (early return);
`value = some none`: `JSON.parse` throws (caught, logged);
`value = some (some e)`: the parsed event.  `sendOk` is the outcome of the
SMTP delivery; `sendEmail` logs and rethrows on failure, and the rethrown
error is caught by the surrounding `catch`, which only logs. -/
def processMessage (value : Option (Option RawEvent)) (sendOk : Bool) : ConsumeOut :=
  match value with
  | none => { actions := [], logs := [] }
  | some none => { actions := [], logs := ["Error processing message"] }
  | some (some e) =>
    match e.type, e.toAddr, e.subject, e.body with
    | some ty, some t, some s, some b =>
      if ty == "email.send" && (t != "") && (s != "") && (b != "") then
        if sendOk then
          { actions := [.deliver t s b], logs := ["Email sent to " ++ t ++ ": " ++ s] }
        else
          { actions := [.deliver t s b],
            logs := ["Failed to send email to " ++ t, "Error processing message"] }
      else
        { actions := [], logs := ["Received unknown or malformed event"] }
    | _, _, _, _ => { actions := [], logs := ["Received unknown or malformed event"] }

/-!
## Operation sequences and specification-side definitions
-/

/-- One state-changing operation of the trade-offer service. -/
inductive Op where
  | create (actor requestedGameId offeredGameId now : Nat)
  | update (actor offerId : Nat) (body : Option String) (now : Nat)
deriving Repr

/-- The store after one operation (the broker outcome cannot influence the
store, so it is fixed). -/
def applyOp (st : DB) : Op → DB
  | .create a r o n => (createOfferCore st a r o n (fun _ => true)).db
  | .update a i b n => (updateStatusCore st a i b n (fun _ => true)).db

/-- The store after a sequence of operations. -/
def applyOps (st : DB) (ops : List Op) : DB :=
  ops.foldl applyOp st

/-- The permitted evolutions of one offer's status: unchanged, or the edge
`pending → accepted`, or the edge `pending → rejected`. -/
def statusReach (a b : Status) : Prop :=
  a = b ∨ (a = .pending ∧ (b = .accepted ∨ b = .rejected))

/-- Every broker publish of the trace is preceded by a store write: the
persistence commit happens before any event emission. -/
def commitBeforeEmitAux : List SvcAction → Bool → Bool
  | [], _ => true
  | a :: rest, seenWrite =>
    match a with
    | .publish _ => seenWrite && commitBeforeEmitAux rest seenWrite
    | _ => commitBeforeEmitAux rest true

/-- A trace in which no event is emitted before the store write. -/
def commitBeforeEmit (tr : List SvcAction) : Bool :=
  commitBeforeEmitAux tr false

/-- The error taxonomy of the specification. -/
inductive SpecErr where
  | NotFound
  | Forbidden
  | InvalidState
  | InvalidRequest
deriving DecidableEq, Repr

/-- `CreateOffer` as the claim states it: both items must exist (else
`NotFound`), the offered item must be owned by the actor (else `Forbidden`),
the owner of the requested item must differ from the actor (else
`InvalidRequest`); on success the offerer is the actor and the recipient is
the requested item's owner. -/
def createOfferSpec (st : DB) (actor requestedItemId offeredItemId : Nat) :
    Except SpecErr (Nat × Nat) :=
  match st.findGame requestedItemId, st.findGame offeredItemId with
  | none, _ => .error .NotFound
  | _, none => .error .NotFound
  | some requested, some offered =>
    if offered.owner_id ≠ actor then .error .Forbidden
    else if requested.owner_id = actor then .error .InvalidRequest
    else .ok (actor, requested.owner_id)

/-- Correspondence between a `POST /offers` execution and the claim's
`CreateOffer` contract: each specification error maps to its HTTP
representation with the store untouched, and a specification success maps to
a 201 with a new persisted `pending` record whose participants are as
specified. -/
def createMatches (out : HandlerOut) (st : DB) (now : Nat)
    (spec : Except SpecErr (Nat × Nat)) : Prop :=
  match spec with
  | .error .NotFound =>
    (out.resp = .err 404 "Requested game not found" ∨
     out.resp = .err 404 "Offered game not found") ∧ out.db = st
  | .error .Forbidden =>
    out.resp = .err 403 "Forbidden: You can only offer games you own" ∧ out.db = st
  | .error .InvalidState => False
  | .error .InvalidRequest =>
    out.resp = .err 400 "Cannot create trade offer for your own game" ∧ out.db = st
  | .ok (offererId, recipientId) =>
    ∃ o : Offer, out.resp = .offer o 201 ∧ o.status = .pending ∧
      o.offerer_id = offererId ∧ o.recipient_id = recipientId ∧
      o.created_at = now ∧ o.updated_at = now ∧
      out.db.offers = st.offers ++ [o]

/-- `UpdateStatus` as the claim states it: the offer must exist (else
`NotFound`), the actor must be the stored recipient (else `Forbidden`), the
current status must be `pending` (else `InvalidState`), the new status must
be `accepted` or `rejected` (else `InvalidRequest`); on success the status
becomes the new status and `updatedAt` is refreshed. -/
def updateStatusSpec (st : DB) (actor offerId : Nat) (body : Option String) :
    Except SpecErr Status :=
  match st.findOffer offerId with
  | none => .error .NotFound
  | some o =>
    if actor ≠ o.recipient_id then .error .Forbidden
    else if o.status ≠ .pending then .error .InvalidState
    else
      match body.bind tradeOfferUpdateParse with
      | none => .error .InvalidRequest
      | some s => .ok s

/-- Correspondence between a `PATCH /offers/:id` execution and the claim's
`UpdateStatus` contract. -/
def updateMatches (out : HandlerOut) (st : DB) (offerId now : Nat)
    (spec : Except SpecErr Status) : Prop :=
  match spec with
  | .error .NotFound =>
    out.resp = .err 404 "Trade offer not found" ∧ out.db = st
  | .error .Forbidden =>
    out.resp = .err 403 "Forbidden: Only the recipient can update this offer" ∧ out.db = st
  | .error .InvalidState =>
    out.resp = .err 400 "Only pending offers can be updated" ∧ out.db = st
  | .error .InvalidRequest =>
    (out.resp = .err 400 "Invalid input" ∨ out.resp = .err 400 "Invalid status value") ∧
    out.db = st
  | .ok s =>
    ∃ o : Offer, st.findOffer offerId = some o ∧
      out.resp = .offer { o with status := s, updated_at := now } 200 ∧
      out.db = patchApply st offerId s now

/-- The consumer contract as the claim states it: a message that parses as a
`DomainEvent` of type `email.send` whose `to`, `subject` and `body` payload
fields are present and well-formed (non-empty) produces exactly the one
delivery invocation; every other message is discarded with no delivery. -/
def processMessageSpecActions (value : Option (Option RawEvent)) : List ConsumerAction :=
  match value with
  | some (some e) =>
    match e.type, e.toAddr, e.subject, e.body with
    | some ty, some t, some s, some b =>
      if ty = "email.send" ∧ t ≠ "" ∧ s ≠ "" ∧ b ≠ "" then [.deliver t s b] else []
    | _, _, _, _ => []
  | _ => []

/-!
## Concrete evaluation state

A two-participant store with one pending offer (id 1, offerer 1, recipient 2),
used to evaluate the handlers at concrete inputs.
-/

def demoDB : DB :=
  { users := [(1, { name := "Alice", email := "alice@example.com" }),
              (2, { name := "Bob", email := "bob@example.com" }),
              (3, { name := "Cara", email := "cara@example.com" })],
    games := [(10, { owner_id := 1, name := "Halo", year := 2001 }),
              (20, { owner_id := 2, name := "Myst", year := 1993 })],
    offers := [{ id := 1, requested_game_id := 20, offered_game_id := 10, offerer_id := 1,
                 recipient_id := 2, status := .pending, created_at := 0, updated_at := 0 }],
    nextOfferId := 2 }

def demoAcceptedDB : DB :=
  { demoDB with offers := [{ id := 1, requested_game_id := 20, offered_game_id := 10,
                             offerer_id := 1, recipient_id := 2, status := .accepted,
                             created_at := 0, updated_at := 1 }] }

/-!
## Theorems
-/

theorem hbAux_out_append (vars : List (String × String)) (l r : List Char)
    (h : ∀ c ∈ l, c ≠ '{') :
    hbAux vars .out (l ++ r) = l ++ hbAux vars .out r := by
  induction l with
  | nil => rfl
  | cons c cs ih =>
    have hc : c ≠ '{' := h c (List.mem_cons_self c cs)
    simp only [List.cons_append, hbAux, if_neg hc, List.append_eq]
    rw [ih (fun x hx => h x (List.mem_cons_of_mem _ hx))]

theorem hbAux_inside (vars : List (String × String)) (n : List Char) (r : List Char)
    (h : ∀ c ∈ n, c ≠ '{' ∧ c ≠ '}') :
    ∀ acc : List Char,
      hbAux vars (.inside acc) (n ++ '}' :: '}' :: r) =
        hbSubst vars (String.mk (acc.reverse ++ n)) ++ hbAux vars .out r := by
  induction n with
  | nil =>
    intro acc
    simp [hbAux]
  | cons c cs ih =>
    intro acc
    have hc : c ≠ '}' := (h c (List.mem_cons_self c cs)).2
    simp only [List.cons_append, hbAux, if_neg hc, List.append_eq]
    rw [ih (fun x hx => h x (List.mem_cons_of_mem _ hx)) (c :: acc)]
    simp [List.append_assoc]

theorem c2_render_general (pre name post : String) (vars : List (String × String))
    (hpre : ∀ c ∈ pre.data, c ≠ '{')
    (hname : ∀ c ∈ name.data, c ≠ '{' ∧ c ≠ '}') :
    hbRender (pre ++ "\x7b\x7b" ++ name ++ "\x7d\x7d" ++ post) vars =
      pre ++ String.mk (hbSubst vars name) ++ hbRender post vars := by
  have hbb : ("\x7b\x7b" : String).data = ['{', '{'] := rfl
  have hcc : ("\x7d\x7d" : String).data = ['}', '}'] := rfl
  show String.mk _ = _
  have hdata : (pre ++ "\x7b\x7b" ++ name ++ "\x7d\x7d" ++ post).data
      = pre.data ++ '{' :: '{' :: (name.data ++ '}' :: '}' :: post.data) := by
    simp [String.data_append, hbb, hcc]
  rw [hdata, hbAux_out_append vars _ _ hpre]
  simp only [hbAux, if_pos rfl]
  rw [hbAux_inside vars _ _ hname []]
  have hmk : ∀ (x y : List Char), String.mk x ++ String.mk y = String.mk (x ++ y) :=
    fun _ _ => rfl
  show String.mk _ = String.mk pre.data ++ String.mk _ ++ String.mk _
  rw [hmk, hmk]
  simp [hbRender, List.append_assoc]


theorem find?_id_map (upd : Offer → Offer) (hid : ∀ o, (upd o).id = o.id)
    (l : List Offer) (i : Nat) :
    (l.map upd).find? (fun o => o.id == i) = (l.find? (fun o => o.id == i)).map upd := by
  rw [List.find?_map]
  have hp : ((fun o : Offer => o.id == i) ∘ upd) = (fun o : Offer => o.id == i) := by
    funext o
    simp [Function.comp, hid]
  rw [hp]

theorem findOffer_patchApply (st : DB) (j : Nat) (s : Status) (n : Nat) (i : Nat) :
    (patchApply st j s n).findOffer i =
      (st.findOffer i).map (fun o =>
        if o.id == j then { o with status := s, updated_at := n } else o) := by
  show (st.offers.map _).find? _ = _
  exact find?_id_map _ (fun o => by by_cases h : o.id == j <;> simp [h]) st.offers i

theorem findUser_of_hasUser (st : DB) (i : Nat) (h : st.hasUser i = true) :
    ∃ u, st.findUser i = some u := by
  unfold DB.hasUser at h
  rw [List.any_eq_true] at h
  have hs : (st.users.find? (fun p => p.1 == i)).isSome := List.find?_isSome.mpr h
  obtain ⟨q, hq⟩ := Option.isSome_iff_exists.mp hs
  exact ⟨q.2, by unfold DB.findUser; rw [hq]; rfl⟩

theorem findGame_of_hasGame (st : DB) (i : Nat) (h : st.hasGame i = true) :
    ∃ g, st.findGame i = some g := by
  unfold DB.hasGame at h
  rw [List.any_eq_true] at h
  have hs : (st.games.find? (fun p => p.1 == i)).isSome := List.find?_isSome.mpr h
  obtain ⟨q, hq⟩ := Option.isSome_iff_exists.mp hs
  exact ⟨q.2, by unfold DB.findGame; rw [hq]; rfl⟩

theorem wf_game_owner (st : DB) (h : st.wf = true) (i : Nat) (g : Game)
    (hg : st.findGame i = some g) : st.hasUser g.owner_id = true := by
  unfold DB.wf at h
  rw [Bool.and_eq_true, List.all_eq_true] at h
  unfold DB.findGame at hg
  obtain ⟨p, hp, hsnd⟩ : ∃ p, st.games.find? (fun p => p.1 == i) = some p ∧ p.2 = g := by
    cases hf : st.games.find? (fun p => p.1 == i) with
    | none => rw [hf] at hg; exact absurd hg (by simp)
    | some q => exact ⟨q, rfl, by rw [hf] at hg; simpa using hg⟩
  have := h.1 p (List.mem_of_find?_eq_some hp)
  rwa [hsnd] at this

theorem wf_offer_refs (st : DB) (h : st.wf = true) (i : Nat) (o : Offer)
    (ho : st.findOffer i = some o) :
    st.hasUser o.offerer_id = true ∧ st.hasUser o.recipient_id = true ∧
    st.hasGame o.requested_game_id = true ∧ st.hasGame o.offered_game_id = true := by
  unfold DB.wf at h
  rw [Bool.and_eq_true] at h
  obtain ⟨hA, hB⟩ := h
  rw [List.all_eq_true] at hB
  have hm : o ∈ st.offers := List.mem_of_find?_eq_some ho
  have := hB o hm
  simp only [Bool.and_eq_true] at this
  exact ⟨this.1.1.1, this.1.1.2, this.1.2, this.2⟩

/-- C5: `CreateOffer` follows the claim's ladder exactly: a missing item
fails `NotFound` (404); an offered item not owned by the actor fails
`Forbidden` (403); a requested item owned by the actor fails `InvalidRequest`
(400); otherwise a new record with `status = pending`, `offererId = actorId`
and `recipientId` = the requested item's owner is appended to the store.  The
hypotheses — the store satisfies its foreign keys and contains the
authenticated actor — hold of every state Postgres and the auth layer can
produce. -/
theorem c5_create_offer_contract (st : DB) (actor rid oid now : Nat) (pubOk : Nat → Bool)
    (hwf : st.wf = true) (hactor : st.hasUser actor = true) :
    createMatches (createOfferCore st actor rid oid now pubOk) st now
      (createOfferSpec st actor rid oid) := by
  unfold createOfferCore createOfferSpec
  cases hrg : st.findGame rid with
  | none => simp [createMatches, errorOut]
  | some rg =>
    cases hog : st.findGame oid with
    | none => simp [createMatches, errorOut]
    | some og =>
      by_cases h1 : og.owner_id ≠ actor
      · simp [h1, createMatches, errorOut]
      · by_cases h2 : rg.owner_id = actor
        · simp [h1, h2, createMatches, errorOut]
        · have hru : st.hasUser rg.owner_id = true := wf_game_owner st hwf rid rg hrg
          obtain ⟨uo, huo⟩ := findUser_of_hasUser st actor hactor
          obtain ⟨ur, hur⟩ := findUser_of_hasUser st rg.owner_id hru
          have hfk : (st.hasUser actor && st.hasUser rg.owner_id) = true := by
            rw [hactor, hru]; rfl
          simp only [if_neg h1, if_neg h2, hfk, if_true]
          simp only [huo, hur]
          simp only [createMatches]
          exact ⟨{ id := st.nextOfferId, requested_game_id := rid, offered_game_id := oid,
                   offerer_id := actor, recipient_id := rg.owner_id, status := .pending,
                   created_at := now, updated_at := now },
                 rfl, rfl, rfl, rfl, rfl, rfl, rfl⟩

theorem patchFinish_db (st : DB) (j : Nat) (s : Status) (n : Nat) (pub : Nat → Bool) :
    (patchFinish st j s n pub).db = patchApply st j s n := by
  unfold patchFinish
  dsimp only
  split
  · rfl
  · split
    · split_ifs <;> rfl
    · rfl

theorem patchFinish_resp (st : DB) (j : Nat) (s : Status) (n : Nat) (pub : Nat → Bool)
    (o : Offer) (ho : st.findOffer j = some o) :
    (patchFinish st j s n pub).resp = .offer { o with status := s, updated_at := n } 200 := by
  have ho' : List.find? (fun x => x.id == j) st.offers = some o := ho
  have hoj : (o.id == j) = true := by simpa using List.find?_some ho'
  have h1 : (patchApply st j s n).findOffer j = some { o with status := s, updated_at := n } := by
    rw [findOffer_patchApply, ho]
    dsimp only [Option.map]
    rw [if_pos hoj]
  unfold patchFinish
  dsimp only
  simp only [h1]
  split
  · split_ifs <;> rfl
  · rfl

/-- C6: `UpdateStatus` follows the claim's ladder exactly: a missing offer
fails `NotFound` (404); an actor other than the stored recipient fails
`Forbidden` (403); a non-pending offer fails `InvalidState` (400); a new
status that is not `accepted` or `rejected` fails `InvalidRequest` (400);
otherwise the status becomes the new status and `updated_at` is refreshed to
the request time. -/
theorem c6_update_status_contract (st : DB) (actor offerId : Nat) (body : Option String) (now : Nat)
    (pubOk : Nat → Bool) :
    updateMatches (updateStatusCore st actor offerId body now pubOk) st offerId now
      (updateStatusSpec st actor offerId body) := by
  unfold updateStatusCore updateStatusSpec patchCheck
  cases ho : st.findOffer offerId with
  | none => simp [updateMatches]
  | some o =>
    by_cases h1 : o.recipient_id ≠ actor
    · have h1' : actor ≠ o.recipient_id := fun h => h1 h.symm
      simp [h1, h1', updateMatches]
    · have h1' : ¬(actor ≠ o.recipient_id) := fun h => h1 (fun he => h he.symm)
      by_cases h2 : o.status ≠ .pending
      · simp [h1, h1', h2, updateMatches]
      · cases body with
        | none => simp [h1, h1', h2, updateMatches]
        | some raw =>
          cases hp : tradeOfferUpdateParse raw with
          | none => simp [h1, h1', h2, hp, updateMatches]
          | some s =>
            simp only [if_neg h1, if_neg h1', if_neg h2]
            dsimp only [Option.bind]
            simp only [hp]
            simp only [updateMatches]
            exact ⟨o, ho, patchFinish_resp st offerId s now pubOk o ho,
                   patchFinish_db st offerId s now pubOk⟩

theorem patchFinish_events (st : DB) (j : Nat) (s : Status) (n : Nat) (pub : Nat → Bool)
    (o : Offer) (ho : st.findOffer j = some o) (hwf : st.wf = true)
    (hs : s = .accepted ∨ s = .rejected) :
    ∃ uo ur, st.findUser o.offerer_id = some uo ∧ st.findUser o.recipient_id = some ur ∧
      (patchFinish st j s n pub).events.map EmailEvent.toAddr = [uo.email, ur.email] := by
  obtain ⟨hu1, hu2, hg1, hg2⟩ := wf_offer_refs st hwf j o ho
  obtain ⟨uo, huo⟩ := findUser_of_hasUser st o.offerer_id hu1
  obtain ⟨ur, hur⟩ := findUser_of_hasUser st o.recipient_id hu2
  obtain ⟨g1, hfg1⟩ := findGame_of_hasGame st o.requested_game_id hg1
  obtain ⟨g2, hfg2⟩ := findGame_of_hasGame st o.offered_game_id hg2
  refine ⟨uo, ur, huo, hur, ?_⟩
  have ho' : List.find? (fun x => x.id == j) st.offers = some o := ho
  have hoj : (o.id == j) = true := by simpa using List.find?_some ho'
  have h1 : (patchApply st j s n).findOffer j = some { o with status := s, updated_at := n } := by
    rw [findOffer_patchApply, ho]
    dsimp only [Option.map]
    rw [if_pos hoj]
  unfold patchFinish
  dsimp only
  simp only [h1]
  dsimp only
  simp only [huo, hur, hfg1, hfg2]
  rcases hs with h | h <;> subst h
  · rw [if_pos rfl]
    rfl
  · rw [if_neg (by decide), if_pos rfl]
    rfl

theorem createOfferCore_ok_events (st : DB) (a r o n : Nat) (pub : Nat → Bool) (ofr : Offer)
    (c : Nat) (h : (createOfferCore st a r o n pub).resp = .offer ofr c) :
    ∃ uo ur, st.findUser ofr.offerer_id = some uo ∧ st.findUser ofr.recipient_id = some ur ∧
      (createOfferCore st a r o n pub).events.map EmailEvent.toAddr = [ur.email, uo.email] := by
  unfold createOfferCore at h ⊢
  cases hrg : st.findGame r with
  | none => simp only [hrg] at h; exact absurd h (by simp [errorOut])
  | some rg =>
    simp only [hrg] at h
    cases hog : st.findGame o with
    | none => simp only [hog] at h; exact absurd h (by simp [errorOut])
    | some og =>
      simp only [hog] at h
      dsimp only
      by_cases h1 : og.owner_id ≠ a
      · rw [if_pos h1] at h; exact absurd h (by simp [errorOut])
      · rw [if_neg h1] at h ⊢
        by_cases h2 : rg.owner_id = a
        · rw [if_pos h2] at h; exact absurd h (by simp [errorOut])
        · rw [if_neg h2] at h ⊢
          by_cases hfk : (st.hasUser a && st.hasUser rg.owner_id) = true
          · have hab := hfk
            rw [Bool.and_eq_true] at hab
            obtain ⟨uo, huo⟩ := findUser_of_hasUser st a hab.1
            obtain ⟨ur, hur⟩ := findUser_of_hasUser st rg.owner_id hab.2
            rw [if_pos hfk] at h ⊢
            simp only [huo, hur] at h ⊢
            have hofr : ofr = (⟨st.nextOfferId, r, o, a, rg.owner_id, .pending, n, n⟩ : Offer) := by
              have h2 := h.symm
              simp only [Resp.offer.injEq] at h2
              exact h2.1
            subst hofr
            exact ⟨uo, ur, huo, hur, rfl⟩
          · rw [if_neg hfk] at h; exact absurd h (by simp [errorOut])

theorem createOfferCore_err (st : DB) (a r o n : Nat) (pub : Nat → Bool) (c : Nat) (m : String)
    (h : (createOfferCore st a r o n pub).resp = .err c m) :
    (createOfferCore st a r o n pub).db = st ∧
    (createOfferCore st a r o n pub).events = [] ∧
    (createOfferCore st a r o n pub).trace = [] := by
  unfold createOfferCore at h ⊢
  cases hrg : st.findGame r with
  | none => exact ⟨rfl, rfl, rfl⟩
  | some rg =>
    simp only [hrg] at h
    cases hog : st.findGame o with
    | none => exact ⟨rfl, rfl, rfl⟩
    | some og =>
      simp only [hog] at h
      dsimp only
      by_cases h1 : og.owner_id ≠ a
      · rw [if_pos h1]; exact ⟨rfl, rfl, rfl⟩
      · rw [if_neg h1] at h ⊢
        by_cases h2 : rg.owner_id = a
        · rw [if_pos h2]; exact ⟨rfl, rfl, rfl⟩
        · rw [if_neg h2] at h ⊢
          by_cases hfk : (st.hasUser a && st.hasUser rg.owner_id) = true
          · rw [if_pos hfk] at h
            cases hfu : st.findUser a <;> cases hfr : st.findUser rg.owner_id <;>
              simp only [hfu, hfr] at h <;> exact absurd h (by simp)
          · rw [if_neg hfk]; exact ⟨rfl, rfl, rfl⟩

theorem tradeOfferUpdateParse_terminal (raw : String) (s : Status)
    (h : tradeOfferUpdateParse raw = some s) : s = .accepted ∨ s = .rejected := by
  unfold tradeOfferUpdateParse at h
  by_cases h1 : raw = "accepted"
  · rw [if_pos h1] at h
    exact Or.inl (Option.some.inj h).symm
  · rw [if_neg h1] at h
    by_cases h2 : raw = "rejected"
    · rw [if_pos h2] at h
      exact Or.inr (Option.some.inj h).symm
    · rw [if_neg h2] at h
      cases h

theorem patchCheck_ok (st : DB) (actor j : Nat) (body : Option String) (s : Status)
    (h : patchCheck st actor j body = .ok s) :
    ∃ o, st.findOffer j = some o ∧ o.recipient_id = actor ∧ o.status = .pending ∧
      ∃ raw, body = some raw ∧ tradeOfferUpdateParse raw = some s := by
  unfold patchCheck at h
  cases ho : st.findOffer j with
  | none => simp only [ho] at h; exact (Except.noConfusion h)
  | some o =>
    simp only [ho] at h
    by_cases h1 : o.recipient_id ≠ actor
    · rw [if_pos h1] at h; cases h
    · rw [if_neg h1] at h
      by_cases h2 : o.status ≠ .pending
      · rw [if_pos h2] at h; cases h
      · rw [if_neg h2] at h
        cases body with
        | none => cases h
        | some raw =>
          cases hp : tradeOfferUpdateParse raw with
          | none => simp only [hp] at h; exact (Except.noConfusion h)
          | some s2 =>
            simp only [hp] at h
            cases h
            exact ⟨o, rfl, not_ne_iff.mp h1, not_ne_iff.mp h2, raw, rfl, hp⟩

theorem updateStatusCore_err (st : DB) (actor j : Nat) (body : Option String) (now : Nat)
    (pub : Nat → Bool) (c : Nat) (m : String)
    (h : (updateStatusCore st actor j body now pub).resp = .err c m) :
    (updateStatusCore st actor j body now pub).db = st ∧
    (updateStatusCore st actor j body now pub).events = [] ∧
    (updateStatusCore st actor j body now pub).trace = [] := by
  unfold updateStatusCore at h ⊢
  cases hpc : patchCheck st actor j body with
  | error r => exact ⟨rfl, rfl, rfl⟩
  | ok s =>
    obtain ⟨o, ho, _, _, _⟩ := patchCheck_ok st actor j body s hpc
    simp only [hpc] at h
    rw [patchFinish_resp st j s now pub o ho] at h
    cases h

theorem createOfferCore_db_shape (st : DB) (a r o n : Nat) (pub : Nat → Bool) :
    (createOfferCore st a r o n pub).db = st ∨
    ∃ x, (createOfferCore st a r o n pub).db =
      { st with offers := st.offers ++ [x], nextOfferId := st.nextOfferId + 1 } := by
  unfold createOfferCore
  cases st.findGame r with
  | none => exact Or.inl rfl
  | some rg =>
    cases st.findGame o with
    | none => exact Or.inl rfl
    | some og =>
      dsimp only
      split_ifs with h1 h2 h3
      · exact Or.inl rfl
      · exact Or.inl rfl
      · cases st.findUser a <;> cases st.findUser rg.owner_id <;> exact Or.inr ⟨_, rfl⟩
      · exact Or.inl rfl

theorem findOffer_append (st : DB) (x : Offer) (k : Nat) (i : Nat) (o : Offer)
    (h : st.findOffer i = some o) :
    DB.findOffer { st with offers := st.offers ++ [x], nextOfferId := k } i = some o := by
  show (st.offers ++ [x]).find? (fun y => y.id == i) = some o
  rw [List.find?_append]
  have h' : st.offers.find? (fun y => y.id == i) = some o := h
  rw [h']
  rfl

theorem statusReach_trans (a b c : Status) (h1 : statusReach a b) (h2 : statusReach b c) :
    statusReach a c := by
  rcases h1 with rfl | ⟨ha, hb⟩
  · exact h2
  · rcases h2 with rfl | ⟨hb', _⟩
    · exact Or.inr ⟨ha, hb⟩
    · rcases hb with rfl | rfl <;> cases hb'

theorem applyOp_statusReach (st : DB) (op : Op) (i : Nat) (o : Offer)
    (ho : st.findOffer i = some o) :
    ∃ o', (applyOp st op).findOffer i = some o' ∧ statusReach o.status o'.status := by
  cases op with
  | create a r og n =>
    unfold applyOp
    dsimp only
    rcases createOfferCore_db_shape st a r og n (fun _ => true) with hdb | ⟨x, hdb⟩
    · exact ⟨o, by rw [hdb]; exact ho, Or.inl rfl⟩
    · exact ⟨o, by rw [hdb]; exact findOffer_append st x _ i o ho, Or.inl rfl⟩
  | update a2 j body n =>
    unfold applyOp updateStatusCore
    dsimp only
    cases hpc : patchCheck st a2 j body with
    | error r => exact ⟨o, ho, Or.inl rfl⟩
    | ok s =>
      obtain ⟨o0, ho0, hrec, hpend, raw, hbody, hparse⟩ := patchCheck_ok st a2 j body s hpc
      have hterm := tradeOfferUpdateParse_terminal raw s hparse
      have hdb : (patchFinish st j s n (fun _ => true)).db = patchApply st j s n :=
        patchFinish_db st j s n (fun _ => true)
      rw [hdb, findOffer_patchApply, ho]
      by_cases hij : o.id == j
      · have hio : (o.id == i) = true := by
          simpa using List.find?_some (show List.find? (fun x => x.id == i) st.offers = some o from ho)
        have hi : o.id = i := by simpa using hio
        have hj : o.id = j := by simpa using hij
        have hijeq : i = j := hi ▸ hj
        have : o0 = o := by
          rw [← hijeq] at ho0
          exact (Option.some.inj (ho0.symm.trans ho))
        refine ⟨{ o with status := s, updated_at := n }, ?_, ?_⟩
        · dsimp only [Option.map]
          rw [if_pos hij]
        · right
          refine ⟨?_, ?_⟩
          · rw [← this]; exact hpend
          · simpa using hterm
      · refine ⟨o, ?_, Or.inl rfl⟩
        dsimp only [Option.map]
        rw [if_neg (by simpa using hij)]

theorem applyOps_statusReach (ops : List Op) : ∀ (st : DB) (i : Nat) (o o' : Offer),
    st.findOffer i = some o → (applyOps st ops).findOffer i = some o' →
    statusReach o.status o'.status := by
  induction ops with
  | nil =>
    intro st i o o' h1 h2
    have : o = o' := Option.some.inj ((h1.symm.trans h2))
    exact Or.inl (by rw [this])
  | cons op ops ih =>
    intro st i o o' h1 h2
    obtain ⟨o1, ho1, hr1⟩ := applyOp_statusReach st op i o h1
    have h2' : (applyOps (applyOp st op) ops).findOffer i = some o' := h2
    exact statusReach_trans _ _ _ hr1 (ih (applyOp st op) i o1 o' ho1 h2')

theorem createOfferCore_pub_irrel (st : DB) (a r o n : Nat) (f g : Nat → Bool) :
    (createOfferCore st a r o n f).resp = (createOfferCore st a r o n g).resp ∧
    (createOfferCore st a r o n f).db = (createOfferCore st a r o n g).db ∧
    (createOfferCore st a r o n f).trace = (createOfferCore st a r o n g).trace := by
  unfold createOfferCore
  cases st.findGame r with
  | none => exact ⟨rfl, rfl, rfl⟩
  | some rg =>
    cases st.findGame o with
    | none => exact ⟨rfl, rfl, rfl⟩
    | some og =>
      dsimp only
      split_ifs
      · exact ⟨rfl, rfl, rfl⟩
      · exact ⟨rfl, rfl, rfl⟩
      · cases st.findUser a <;> cases st.findUser rg.owner_id <;> exact ⟨rfl, rfl, rfl⟩
      · exact ⟨rfl, rfl, rfl⟩

theorem createOfferCore_cbe (st : DB) (a r o n : Nat) (f : Nat → Bool) :
    commitBeforeEmit (createOfferCore st a r o n f).trace = true := by
  unfold createOfferCore
  cases st.findGame r with
  | none => rfl
  | some rg =>
    cases st.findGame o with
    | none => rfl
    | some og =>
      dsimp only
      split_ifs
      · rfl
      · rfl
      · cases st.findUser a <;> cases st.findUser rg.owner_id <;> rfl
      · rfl

theorem patchFinish_pub_irrel (st : DB) (j : Nat) (s : Status) (n : Nat) (f g : Nat → Bool) :
    (patchFinish st j s n f).resp = (patchFinish st j s n g).resp ∧
    (patchFinish st j s n f).db = (patchFinish st j s n g).db ∧
    (patchFinish st j s n f).trace = (patchFinish st j s n g).trace := by
  unfold patchFinish
  dsimp only
  cases (patchApply st j s n).findOffer j with
  | none => exact ⟨rfl, rfl, rfl⟩
  | some u =>
    dsimp only
    cases st.findUser u.offerer_id <;> cases st.findUser u.recipient_id <;>
      cases st.findGame u.requested_game_id <;> cases st.findGame u.offered_game_id <;>
      dsimp only <;>
      first
        | exact ⟨rfl, rfl, rfl⟩
        | (split_ifs <;> exact ⟨rfl, rfl, rfl⟩)

theorem patchFinish_cbe (st : DB) (j : Nat) (s : Status) (n : Nat) (f : Nat → Bool) :
    commitBeforeEmit (patchFinish st j s n f).trace = true := by
  unfold patchFinish
  dsimp only
  cases (patchApply st j s n).findOffer j with
  | none => rfl
  | some u =>
    dsimp only
    cases st.findUser u.offerer_id <;> cases st.findUser u.recipient_id <;>
      cases st.findGame u.requested_game_id <;> cases st.findGame u.offered_game_id <;>
      dsimp only <;>
      first
        | rfl
        | (split_ifs <;> rfl)

theorem updateStatusCore_pub_irrel (st : DB) (a j : Nat) (body : Option String) (n : Nat)
    (f g : Nat → Bool) :
    (updateStatusCore st a j body n f).resp = (updateStatusCore st a j body n g).resp ∧
    (updateStatusCore st a j body n f).db = (updateStatusCore st a j body n g).db ∧
    (updateStatusCore st a j body n f).trace = (updateStatusCore st a j body n g).trace := by
  unfold updateStatusCore
  cases patchCheck st a j body with
  | error r => exact ⟨rfl, rfl, rfl⟩
  | ok s => exact patchFinish_pub_irrel st j s n f g

theorem updateStatusCore_cbe (st : DB) (a j : Nat) (body : Option String) (n : Nat)
    (f : Nat → Bool) :
    commitBeforeEmit (updateStatusCore st a j body n f).trace = true := by
  unfold updateStatusCore
  cases patchCheck st a j body with
  | error r => rfl
  | ok s => exact patchFinish_cbe st j s n f

theorem processMessage_actions (value : Option (Option RawEvent)) (sendOk : Bool) :
    (processMessage value sendOk).actions = processMessageSpecActions value := by
  cases value with
  | none => rfl
  | some v =>
    cases v with
    | none => rfl
    | some e =>
      obtain ⟨ty, t, s, b⟩ := e
      unfold processMessage processMessageSpecActions
      cases ty with
      | none => rfl
      | some ty =>
        cases t with
        | none => rfl
        | some t =>
          cases s with
          | none => rfl
          | some s =>
            cases b with
            | none => rfl
            | some b =>
              dsimp only
              by_cases hg : (ty == "email.send" && (t != "") && (s != "") && (b != "")) = true
              · have hgp : ty = "email.send" ∧ t ≠ "" ∧ s ≠ "" ∧ b ≠ "" := by
                  simp only [Bool.and_eq_true, beq_iff_eq, bne_iff_ne] at hg
                  exact ⟨hg.1.1.1, hg.1.1.2, hg.1.2, hg.2⟩
                rw [if_pos hg, if_pos hgp]
                cases sendOk <;> rfl
              · have hgp : ¬(ty = "email.send" ∧ t ≠ "" ∧ s ≠ "" ∧ b ≠ "") := by
                  intro hc
                  apply hg
                  simp only [Bool.and_eq_true, beq_iff_eq, bne_iff_ne]
                  exact ⟨⟨⟨hc.1, hc.2.1⟩, hc.2.2.1⟩, hc.2.2.2⟩
                rw [if_neg hg, if_neg hgp]

theorem processMessageSpecActions_len (value : Option (Option RawEvent)) :
    (processMessageSpecActions value).length ≤ 1 := by
  unfold processMessageSpecActions
  split
  · split
    · split <;> simp
    · simp
  · simp

theorem patchCheck_error_shape (st : DB) (actor j : Nat) (body : Option String) (r : Resp)
    (h : patchCheck st actor j body = .error r) : ∃ c m, r = .err c m := by
  unfold patchCheck at h
  cases ho : st.findOffer j with
  | none => simp only [ho] at h; exact ⟨404, _, (Except.error.inj h).symm⟩
  | some o =>
    simp only [ho] at h
    by_cases h1 : o.recipient_id ≠ actor
    · rw [if_pos h1] at h; exact ⟨403, _, (Except.error.inj h).symm⟩
    · rw [if_neg h1] at h
      by_cases h2 : o.status ≠ .pending
      · rw [if_pos h2] at h; exact ⟨400, _, (Except.error.inj h).symm⟩
      · rw [if_neg h2] at h
        cases body with
        | none => exact ⟨400, _, (Except.error.inj h).symm⟩
        | some raw =>
          cases hp : tradeOfferUpdateParse raw with
          | none => simp only [hp] at h; exact ⟨400, _, (Except.error.inj h).symm⟩
          | some s => simp only [hp] at h; exact (Except.noConfusion h)

/-- C4: every successful `CreateOffer` hands exactly two notification events
to the broker, the first addressed to the recipient and the second to the
offerer; every successful `UpdateStatus` on a store satisfying its foreign
keys hands exactly two, the first to the offerer and the second to the
recipient; a failed operation emits no event. -/
theorem c4_event_emission (st : DB) (a r o n : Nat) (pub : Nat → Bool)
    (a2 j2 : Nat) (body : Option String) (n2 : Nat) (pub2 : Nat → Bool) :
    (∀ ofr c, (createOfferCore st a r o n pub).resp = .offer ofr c →
      ∃ uo ur, st.findUser ofr.offerer_id = some uo ∧ st.findUser ofr.recipient_id = some ur ∧
        (createOfferCore st a r o n pub).events.map EmailEvent.toAddr = [ur.email, uo.email]) ∧
    (∀ c m, (createOfferCore st a r o n pub).resp = .err c m →
      (createOfferCore st a r o n pub).events = []) ∧
    (st.wf = true → ∀ ofr c, (updateStatusCore st a2 j2 body n2 pub2).resp = .offer ofr c →
      ∃ uo ur, st.findUser ofr.offerer_id = some uo ∧ st.findUser ofr.recipient_id = some ur ∧
        (updateStatusCore st a2 j2 body n2 pub2).events.map EmailEvent.toAddr = [uo.email, ur.email]) ∧
    (∀ c m, (updateStatusCore st a2 j2 body n2 pub2).resp = .err c m →
      (updateStatusCore st a2 j2 body n2 pub2).events = []) := by
  refine ⟨?_, ?_, ?_, ?_⟩
  · intro ofr c h
    exact createOfferCore_ok_events st a r o n pub ofr c h
  · intro c m h
    exact (createOfferCore_err st a r o n pub c m h).2.1
  · intro hwf ofr c h
    unfold updateStatusCore at h ⊢
    cases hpc : patchCheck st a2 j2 body with
    | error r =>
      obtain ⟨ce, me, hr⟩ := patchCheck_error_shape st a2 j2 body r hpc
      simp only [hpc] at h
      rw [hr] at h
      exact (Resp.noConfusion h)
    | ok s =>
      obtain ⟨o0, ho, hrec, hpend, raw, hbody, hparse⟩ := patchCheck_ok st a2 j2 body s hpc
      obtain ⟨uo, ur, huo, hur, hev⟩ :=
        patchFinish_events st j2 s n2 pub2 o0 ho hwf (tradeOfferUpdateParse_terminal raw s hparse)
      simp only [hpc] at h
      rw [patchFinish_resp st j2 s n2 pub2 o0 ho] at h
      have hofr : ofr = { o0 with status := s, updated_at := n2 } := by
        injection h with h1 h2
        exact h1.symm
      subst hofr
      exact ⟨uo, ur, huo, hur, hev⟩
  · intro c m h
    exact (updateStatusCore_err st a2 j2 body n2 pub2 c m h).2.1

/-- C7: whenever `CreateOffer` or `UpdateStatus` returns an error — any of
the taxonomy — the offer store is left unchanged and no events are emitted;
in particular a self-trade creation always fails 400 with the store untouched
and no events, and an update by a non-recipient always fails 403 with the
store untouched and no events. -/
theorem c7_failure_no_side_effects (st : DB) (a r o n : Nat) (pub : Nat → Bool)
    (a2 j2 : Nat) (body : Option String) (n2 : Nat) (pub2 : Nat → Bool) :
    (∀ c m, (createOfferCore st a r o n pub).resp = .err c m →
      (createOfferCore st a r o n pub).db = st ∧ (createOfferCore st a r o n pub).events = []) ∧
    (∀ c m, (updateStatusCore st a2 j2 body n2 pub2).resp = .err c m →
      (updateStatusCore st a2 j2 body n2 pub2).db = st ∧
      (updateStatusCore st a2 j2 body n2 pub2).events = []) ∧
    (∀ rg og, st.findGame r = some rg → st.findGame o = some og → og.owner_id = a →
      rg.owner_id = a →
      (createOfferCore st a r o n pub).resp = .err 400 "Cannot create trade offer for your own game" ∧
      (createOfferCore st a r o n pub).db = st ∧ (createOfferCore st a r o n pub).events = []) ∧
    (∀ o0, st.findOffer j2 = some o0 → o0.recipient_id ≠ a2 →
      (updateStatusCore st a2 j2 body n2 pub2).resp =
        .err 403 "Forbidden: Only the recipient can update this offer" ∧
      (updateStatusCore st a2 j2 body n2 pub2).db = st ∧
      (updateStatusCore st a2 j2 body n2 pub2).events = []) := by
  refine ⟨?_, ?_, ?_, ?_⟩
  · intro c m h
    obtain ⟨h1, h2, _⟩ := createOfferCore_err st a r o n pub c m h
    exact ⟨h1, h2⟩
  · intro c m h
    obtain ⟨h1, h2, _⟩ := updateStatusCore_err st a2 j2 body n2 pub2 c m h
    exact ⟨h1, h2⟩
  · intro rg og hrg hog hown hself
    unfold createOfferCore
    simp only [hrg, hog]
    rw [if_neg (fun hh => hh hown), if_pos hself]
    exact ⟨rfl, rfl, rfl⟩
  · intro o0 ho hne
    unfold updateStatusCore patchCheck
    simp only [ho]
    rw [if_pos hne]
    exact ⟨rfl, rfl, rfl⟩

/-- C10: with a missing or invalid bearer token (`authenticate` yields
`none`), each of the four offer routes returns the 401 Unauthorized error —
an HTTP code outside the 404/403/400 taxonomy of the four specification
errors — leaving the offer store unchanged and emitting no events. -/
theorem c10_auth_gate (verify : String → Option Nat) (authHeader : Option String) (st : DB)
    (f : OfferFilter) (offerId : Nat) (createBody : Option (Nat × Nat))
    (patchBody : Option String) (now : Nat) (pubOk : Nat → Bool)
    (hauth : authenticate verify authHeader = none) :
    getOffersRoute verify authHeader st f = errorOut st 401 "Unauthorized: Please login first" ∧
    getOfferRoute verify authHeader st offerId = errorOut st 401 "Unauthorized: Please login first" ∧
    postOffersRoute verify authHeader st createBody now pubOk =
      errorOut st 401 "Unauthorized: Please login first" ∧
    patchOfferRoute verify authHeader st offerId patchBody now pubOk =
      errorOut st 401 "Unauthorized: Please login first" ∧
    (errorOut st 401 "Unauthorized: Please login first").db = st ∧
    (errorOut st 401 "Unauthorized: Please login first").events = [] ∧
    (401 : Nat) ≠ 404 ∧ (401 : Nat) ≠ 403 ∧ (401 : Nat) ≠ 400 := by
  unfold getOffersRoute getOfferRoute postOffersRoute patchOfferRoute
  rw [hauth]
  exact ⟨rfl, rfl, rfl, rfl, rfl, rfl, by decide, by decide, by decide⟩

/-- C1 (code bug): the claim says the pending transition is implemented as a
single conditional update guarded by the offer id and `status = 'pending'`,
so that two concurrent `UpdateStatus` calls on one pending offer produce
exactly one success while the other receives `InvalidState`.  The `UPDATE` of
`PATCH /offers/:id` is in fact guarded by the id alone; the pending check is
a separate earlier `SELECT`.  On the pending offer 1 of `demoDB`, under the
interleaving in which both requests pass their read-and-validate phase before
either writes, the accept call and the reject call both return 200 (neither
observes `InvalidState`) and the final stored status is the second writer's —
a silent overwrite of the first.  The last conjunct shows the `UPDATE` also
rewrites an already-accepted offer, so it carries no status guard. -/
theorem c1_patch_race_two_successes :
    (racePatch demoDB ⟨2, 1, some "accepted", 5⟩ ⟨2, 1, some "rejected", 6⟩ (fun _ => true)).1 =
      .offer { id := 1, requested_game_id := 20, offered_game_id := 10, offerer_id := 1,
               recipient_id := 2, status := .accepted, created_at := 0, updated_at := 5 } 200 ∧
    (racePatch demoDB ⟨2, 1, some "accepted", 5⟩ ⟨2, 1, some "rejected", 6⟩ (fun _ => true)).2.1 =
      .offer { id := 1, requested_game_id := 20, offered_game_id := 10, offerer_id := 1,
               recipient_id := 2, status := .rejected, created_at := 0, updated_at := 6 } 200 ∧
    (racePatch demoDB ⟨2, 1, some "accepted", 5⟩ ⟨2, 1, some "rejected", 6⟩ (fun _ => true)).2.2.findOffer 1 =
      some { id := 1, requested_game_id := 20, offered_game_id := 10, offerer_id := 1,
             recipient_id := 2, status := .rejected, created_at := 0, updated_at := 6 } ∧
    (patchApply demoAcceptedDB 1 .rejected 7).findOffer 1 =
      some { id := 1, requested_game_id := 20, offered_game_id := 10, offerer_id := 1,
             recipient_id := 2, status := .rejected, created_at := 0, updated_at := 7 } := by
  exact ⟨rfl, rfl, rfl, rfl⟩

/-- C3: over every sequence of `CreateOffer` and `UpdateStatus` operations,
the status of a stored offer evolves only along `pending → accepted` or
`pending → rejected`; in particular a terminal status never changes again, so
no sequence produces `accepted → rejected`, `rejected → accepted`, or a
second transition out of a terminal state. -/
theorem c3_status_transition_invariant (st : DB) (ops : List Op) (i : Nat) (o o' : Offer)
    (h1 : st.findOffer i = some o) (h2 : (applyOps st ops).findOffer i = some o') :
    statusReach o.status o'.status :=
  applyOps_statusReach ops st i o o' h1 h2

/-- Witness for C3: one accept operation on the pending offer 1 of `demoDB`
takes its status from `pending` to `accepted`. -/
theorem c3_status_transition_invariant_witness :
    demoDB.findOffer 1 = some ⟨1, 20, 10, 1, 2, .pending, 0, 0⟩ ∧
    (applyOps demoDB [Op.update 2 1 (some "accepted") 5]).findOffer 1 =
      some ⟨1, 20, 10, 1, 2, .accepted, 0, 5⟩ ∧
    statusReach (⟨1, 20, 10, 1, 2, .pending, 0, 0⟩ : Offer).status
      (⟨1, 20, 10, 1, 2, .accepted, 0, 5⟩ : Offer).status :=
  ⟨rfl, rfl,
   c3_status_transition_invariant demoDB [Op.update 2 1 (some "accepted") 5] 1
     ⟨1, 20, 10, 1, 2, .pending, 0, 0⟩ ⟨1, 20, 10, 1, 2, .accepted, 0, 5⟩ rfl rfl⟩

/-- Witness for C4 at `demoDB`: a successful create, a successful accept, and
a failed (forbidden) update. -/
theorem c4_event_emission_witness :
    ((createOfferCore demoDB 1 20 10 5 (fun _ => true)).resp =
      .offer ⟨2, 20, 10, 1, 2, .pending, 5, 5⟩ 201) ∧
    (∃ uo ur, demoDB.findUser (⟨2, 20, 10, 1, 2, .pending, 5, 5⟩ : Offer).offerer_id = some uo ∧
      demoDB.findUser (⟨2, 20, 10, 1, 2, .pending, 5, 5⟩ : Offer).recipient_id = some ur ∧
      (createOfferCore demoDB 1 20 10 5 (fun _ => true)).events.map EmailEvent.toAddr =
        [ur.email, uo.email]) ∧
    demoDB.wf = true ∧
    ((updateStatusCore demoDB 2 1 (some "accepted") 5 (fun _ => true)).resp =
      .offer ⟨1, 20, 10, 1, 2, .accepted, 0, 5⟩ 200) ∧
    (∃ uo ur, demoDB.findUser (⟨1, 20, 10, 1, 2, .accepted, 0, 5⟩ : Offer).offerer_id = some uo ∧
      demoDB.findUser (⟨1, 20, 10, 1, 2, .accepted, 0, 5⟩ : Offer).recipient_id = some ur ∧
      (updateStatusCore demoDB 2 1 (some "accepted") 5 (fun _ => true)).events.map EmailEvent.toAddr =
        [uo.email, ur.email]) ∧
    ((updateStatusCore demoDB 3 1 (some "accepted") 5 (fun _ => true)).resp =
      .err 403 "Forbidden: Only the recipient can update this offer") ∧
    (updateStatusCore demoDB 3 1 (some "accepted") 5 (fun _ => true)).events = [] :=
  ⟨rfl,
   (c4_event_emission demoDB 1 20 10 5 (fun _ => true) 2 1 (some "accepted") 5 (fun _ => true)).1
     ⟨2, 20, 10, 1, 2, .pending, 5, 5⟩ 201 rfl,
   by decide,
   rfl,
   (c4_event_emission demoDB 1 20 10 5 (fun _ => true) 2 1 (some "accepted") 5 (fun _ => true)).2.2.1
     (by decide) ⟨1, 20, 10, 1, 2, .accepted, 0, 5⟩ 200 rfl,
   rfl,
   (c4_event_emission demoDB 1 20 10 5 (fun _ => true) 3 1 (some "accepted") 5 (fun _ => true)).2.2.2
     403 "Forbidden: Only the recipient can update this offer" rfl⟩

/-- Witness for C5: the contract evaluated on `demoDB` for a valid creation
by user 1. -/
theorem c5_create_offer_contract_witness :
    demoDB.wf = true ∧ demoDB.hasUser 1 = true ∧
    createMatches (createOfferCore demoDB 1 20 10 5 (fun _ => true)) demoDB 5
      (createOfferSpec demoDB 1 20 10) :=
  ⟨by decide, by decide, c5_create_offer_contract demoDB 1 20 10 5 (fun _ => true) (by decide) (by decide)⟩

/-- Witness for C7: a self-trade creation and a non-recipient update on
`demoDB`. -/
theorem c7_failure_no_side_effects_witness :
    demoDB.findGame 10 = some ⟨1, "Halo", 2001⟩ ∧
    ((createOfferCore demoDB 1 10 10 5 (fun _ => true)).resp =
      .err 400 "Cannot create trade offer for your own game" ∧
     (createOfferCore demoDB 1 10 10 5 (fun _ => true)).db = demoDB ∧
     (createOfferCore demoDB 1 10 10 5 (fun _ => true)).events = []) ∧
    demoDB.findOffer 1 = some ⟨1, 20, 10, 1, 2, .pending, 0, 0⟩ ∧
    ((updateStatusCore demoDB 3 1 (some "accepted") 5 (fun _ => true)).resp =
      .err 403 "Forbidden: Only the recipient can update this offer" ∧
     (updateStatusCore demoDB 3 1 (some "accepted") 5 (fun _ => true)).db = demoDB ∧
     (updateStatusCore demoDB 3 1 (some "accepted") 5 (fun _ => true)).events = []) :=
  ⟨rfl,
   (c7_failure_no_side_effects demoDB 1 10 10 5 (fun _ => true) 3 1 (some "accepted") 5 (fun _ => true)).2.2.1
     ⟨1, "Halo", 2001⟩ ⟨1, "Halo", 2001⟩ rfl rfl rfl rfl,
   rfl,
   (c7_failure_no_side_effects demoDB 1 10 10 5 (fun _ => true) 3 1 (some "accepted") 5 (fun _ => true)).2.2.2
     ⟨1, 20, 10, 1, 2, .pending, 0, 0⟩ rfl (by decide)⟩

/-- Witness for C10: a request with no Authorization header on the list
route. -/
theorem c10_auth_gate_witness :
    authenticate (fun _ => none) none = none ∧
    getOffersRoute (fun _ => none) none demoDB ⟨none, none, none⟩ =
      errorOut demoDB 401 "Unauthorized: Please login first" :=
  ⟨rfl,
   (c10_auth_gate (fun _ => none) none demoDB ⟨none, none, none⟩ 1 none none 0 (fun _ => true) rfl).1⟩

/-- C2 (counterexample): the claim says a placeholder without a binding is
left verbatim, so rendering "Hi \x7b\x7bname\x7d\x7d" with no bindings would
return the template text unchanged; the renderer instead substitutes the
empty string, producing "Hi ". -/
theorem c2_unbound_placeholder_counterexample :
    hbRender "Hi \x7b\x7bname\x7d\x7d" [] = "Hi " ∧
    hbRender "Hi \x7b\x7bname\x7d\x7d" [] ≠ "Hi \x7b\x7bname\x7d\x7d" :=
  ⟨by decide, by decide⟩

/-- C2 (amended): the template renderer substitutes each placeholder that has
a binding with its HTML-escaped value and replaces each placeholder without a
binding by the empty string (no error, no verbatim retention); rendering
"Hi \x7b\x7bname\x7d\x7d" with name bound to Alice yields "Hi Alice", and with
no binding yields "Hi ". -/
theorem c2_template_rendering :
    (∀ (pre name post : String) (vars : List (String × String)),
      (∀ c ∈ pre.data, c ≠ '{') → (∀ c ∈ name.data, c ≠ '{' ∧ c ≠ '}') →
      hbRender (pre ++ "\x7b\x7b" ++ name ++ "\x7d\x7d" ++ post) vars =
        pre ++ String.mk (hbSubst vars name) ++ hbRender post vars) ∧
    hbRender "Hi \x7b\x7bname\x7d\x7d" [("name", "Alice")] = "Hi Alice" ∧
    hbRender "Hi \x7b\x7bname\x7d\x7d" [] = "Hi " :=
  ⟨c2_render_general, by decide, by decide⟩

/-- Witness instantiating the general conjunct of the C2 theorem at the
claim's own example. -/
theorem c2_template_rendering_witness :
    (∀ c ∈ ("Hi " : String).data, c ≠ '{') ∧
    (∀ c ∈ ("name" : String).data, c ≠ '{' ∧ c ≠ '}') ∧
    hbRender ("Hi " ++ "\x7b\x7b" ++ "name" ++ "\x7d\x7d" ++ "") [("name", "Alice")] =
      "Hi " ++ String.mk (hbSubst [("name", "Alice")] "name") ++ hbRender "" [("name", "Alice")] :=
  ⟨by decide, by decide,
   c2_template_rendering.1 "Hi " "name" "" [("name", "Alice")] (by decide) (by decide)⟩

/-- C8: in every `CreateOffer` and `UpdateStatus` execution the store write
precedes every broker publish in the action trace, and the broker outcome of
the publishes (`f` versus `g`) influences neither the response, nor the
resulting store, nor the events handed to the broker — only the log lines —
so a publish failure never rolls back or alters the committed operation. -/
theorem c8_commit_before_emit (st : DB) (a r o n : Nat) (f g : Nat → Bool)
    (a2 j2 : Nat) (body : Option String) (n2 : Nat) :
    ((createOfferCore st a r o n f).resp = (createOfferCore st a r o n g).resp ∧
     (createOfferCore st a r o n f).db = (createOfferCore st a r o n g).db ∧
     (createOfferCore st a r o n f).events = (createOfferCore st a r o n g).events) ∧
    commitBeforeEmit (createOfferCore st a r o n f).trace = true ∧
    ((updateStatusCore st a2 j2 body n2 f).resp = (updateStatusCore st a2 j2 body n2 g).resp ∧
     (updateStatusCore st a2 j2 body n2 f).db = (updateStatusCore st a2 j2 body n2 g).db ∧
     (updateStatusCore st a2 j2 body n2 f).events = (updateStatusCore st a2 j2 body n2 g).events) ∧
    commitBeforeEmit (updateStatusCore st a2 j2 body n2 f).trace = true := by
  obtain ⟨h1, h2, h3⟩ := createOfferCore_pub_irrel st a r o n f g
  obtain ⟨h4, h5, h6⟩ := updateStatusCore_pub_irrel st a2 j2 body n2 f g
  refine ⟨⟨h1, h2, ?_⟩, createOfferCore_cbe st a r o n f,
          ⟨h4, h5, ?_⟩, updateStatusCore_cbe st a2 j2 body n2 f⟩
  · unfold HandlerOut.events
    rw [h3]
  · unfold HandlerOut.events
    rw [h6]

/-- C9: the consumer delivers exactly the messages that parse to an
`email.send` event whose `to`, `subject` and `body` fields are present and
non-empty, and discards every other message; it makes at most one delivery
attempt per received message, and the attempts made do not depend on the
delivery outcome — a failure is only logged, with no retry and no re-queue at
this layer. -/
theorem c9_consumer_single_delivery (value : Option (Option RawEvent)) (sendOk : Bool) :
    (processMessage value sendOk).actions = processMessageSpecActions value ∧
    (processMessage value sendOk).actions.length ≤ 1 ∧
    (processMessage value sendOk).actions = (processMessage value true).actions := by
  refine ⟨processMessage_actions value sendOk, ?_, ?_⟩
  · rw [processMessage_actions]
    exact processMessageSpecActions_len value
  · rw [processMessage_actions value sendOk, processMessage_actions value true]
